import Mathlib

/-!
Shallow embedding of the pwnies-peru/ai-api repository (src/main.py and
src/typesense_service.py): the Typesense-backed endpoint handlers and the
tool-augmented chat orchestration with streaming response.

External effects (the Typesense client and the model gateway) are modelled as
environment records of functions. A Python exception raised by an external
call, or by the handler code around it, is modelled as an `Except.error`
value; an `Except.error` escaping an endpoint definition models an exception
propagating to the HTTP transport layer (an HTTP 500), since the source has
no route-level exception handlers.
-/

/-- Errors raised by the Typesense client. `objectNotFound` models
`typesense.exceptions.ObjectNotFound`; `otherError` models any other
exception. The payload is the `str()` rendering of the exception. -/
inductive TsError where
  | objectNotFound (msg : String)
  | otherError (msg : String)
deriving DecidableEq

/-- The `str()` rendering of a Typesense exception, as interpolated into
user-facing error strings. -/
def TsError.detail : TsError → String
  | TsError.objectNotFound msg => msg
  | TsError.otherError msg => msg

/-- Opaque token standing for one search-result set returned by
`client.collections[...].documents.search`. -/
abbrev SearchRes := String

/-- A product document (`DocumentBody` in src/typesense_service.py). The
float `price` is modelled as a rational. -/
structure Doc where
  id : String
  name : String
  image : String
  slug : String
  brand : String
  price : Rat
  categories : List String
  updated_at : String
deriving DecidableEq

/-- Environment for `TypesenseService`: the two vendor-client calls the
claims depend on. `search c q query_by sort_by limit offset` models
`client.collections[c].documents.search({q, query_by, sort_by, limit,
offset})`; `retrieve c id` models
`client.collections[c].documents[id].retrieve()`. -/
structure TsEnv where
  search : String → String → String → String → Int → Int → Except TsError SearchRes
  retrieve : String → String → Except TsError Doc

/-- `TypesenseService.search` (src/typesense_service.py): a passthrough to
the client. The source declares defaults `query_by =
"name,brand,categories,embedding"`, `sort_by = "_text_match:desc"`,
`limit = 6`, `offset = 0`; every caller below passes the values the source
passes (explicitly or by default). -/
def TypesenseService.search (env : TsEnv) (collection : String) (q : String)
    (query_by : String) (sort_by : String) (limit : Int) (offset : Int) :
    Except TsError SearchRes :=
  env.search collection q query_by sort_by limit offset

/-- `TypesenseService.get_document`: a passthrough to
`client.collections[collection].documents[doc_id].retrieve()`; any client
exception propagates unchanged. -/
def get_document (env : TsEnv) (collection : String) (doc_id : String) :
    Except TsError Doc :=
  env.retrieve collection doc_id

/-- `POST /api/search_products` (src/main.py): returns
`ts_service.search("products", q, limit=limit)`; at the route `limit`
defaults to 10. -/
def search_products (env : TsEnv) (q : String) (limit : Int) :
    Except TsError SearchRes :=
  TypesenseService.search env "products" q "name,brand,categories,embedding"
    "_text_match:desc" limit 0

/-- `POST /api/semantic_search` (src/main.py): search with
`query_by="embedding,name,brand,categories"`; at the route `limit` defaults
to 10. -/
def semantic_search (env : TsEnv) (q : String) (limit : Int) :
    Except TsError SearchRes :=
  TypesenseService.search env "products" q "embedding,name,brand,categories"
    "_text_match:desc" limit 0

/-- `POST /api/get_product_details` (src/main.py): the route body is
exactly `return ts_service.get_document("products", product_id)`, with no
exception handling, so a raising lookup propagates to the transport
layer. -/
def get_product_details (env : TsEnv) (product_id : String) :
    Except TsError Doc :=
  get_document env "products" product_id

/-- One element of the `results` list built by `multi_search`:
`{"query": query, "results": search_result}`. -/
structure SearchItem where
  query : String
  results : SearchRes
deriving DecidableEq

/-- The `{"searches": results}` response of `multi_search`. -/
structure MultiSearchResp where
  searches : List SearchItem
deriving DecidableEq

/-- The `for query in queries` loop of `multi_search` (src/main.py): each
iteration performs one independent search and appends
`{"query": query, "results": search_result}`. There is no exception
handling in the loop: a raising search propagates. -/
def multiSearchLoop (env : TsEnv) (limit : Int) :
    List String → Except TsError (List SearchItem)
  | [] => Except.ok []
  | query :: rest =>
    match TypesenseService.search env "products" query
        "embedding,name,brand,categories" "_text_match:desc" limit 0 with
    | Except.error e => Except.error e
    | Except.ok search_result =>
      match multiSearchLoop env limit rest with
      | Except.error e => Except.error e
      | Except.ok tail =>
        Except.ok ({ query := query, results := search_result } :: tail)

/-- `POST /api/multi_search` (src/main.py): runs the loop and wraps the
collected list as `{"searches": results}`; at the route `limit` defaults
to 5. -/
def multi_search (env : TsEnv) (queries : List String) (limit : Int) :
    Except TsError MultiSearchResp :=
  match multiSearchLoop env limit queries with
  | Except.error e => Except.error e
  | Except.ok results => Except.ok { searches := results }

/-- Response of the modelled `/get_related_products` route: either a result
set or a structured error object `{error: string}`. -/
inductive RelatedResp where
  | results (r : SearchRes)
  | errObj (error : String)
deriving DecidableEq

/-- Modelled from the spec: the repository source under src/ contains no
`/get_related_products` route; the spec describes it in its interface
section only. Following the spec's words: derive a query from the target
document's brand and name (modelled as `brand ++ " " ++ name`), search for
the top 5 (with the service's default query fields and sort, where the spec
is silent), and on any failure - including a failed document lookup -
return `{error: "Could not find related products: <detail>"}` instead of
propagating the failure. -/
def get_related_products (env : TsEnv) (product_id : String) : RelatedResp :=
  match get_document env "products" product_id with
  | Except.error e =>
    RelatedResp.errObj ("Could not find related products: " ++ e.detail)
  | Except.ok doc =>
    match TypesenseService.search env "products" (doc.brand ++ " " ++ doc.name)
        "name,brand,categories,embedding" "_text_match:desc" 5 0 with
    | Except.error e =>
      RelatedResp.errObj ("Could not find related products: " ++ e.detail)
    | Except.ok r => RelatedResp.results r

/-- One tool call returned by the model: `tc.id`, `tc.function.name` and
`tc.function.arguments` (the nested `function` object is flattened). -/
structure ToolCall where
  id : String
  function_name : String
  arguments : String
deriving DecidableEq

/-- A transcript message dict: role, optional content, echoed tool calls
(the empty list models an absent key) and optional tool_call_id. -/
structure Message where
  role : String
  content : Option String
  tool_calls : List ToolCall
  tool_call_id : Option String
deriving DecidableEq

/-- The `.message` of a first-round completion choice: content and tool
calls. The empty list models both an absent `tool_calls` attribute and an
empty one, matching the source's `hasattr(...) and message.tool_calls`
truthiness test. -/
structure RespMessage where
  content : Option String
  tool_calls : List ToolCall
deriving DecidableEq

/-- One chunk of the streamed final completion: for each choice, its
`delta.content` (`none` models an absent or null content attribute). -/
structure Chunk where
  choices : List (Option String)
deriving DecidableEq

/-- The value produced by `json.loads(...)`, kept opaque: the claims only
depend on whether parsing succeeded, never on the parsed value. -/
abbrev Args := String

/-- One schema entry of the `TOOLS` list in src/main.py: function name,
description, declared parameter names and required parameter names (the
per-parameter descriptions and types are elided; they only advertise the
capability to the model). -/
structure ToolFunction where
  name : String
  description : String
  properties : List String
  required : List String
deriving DecidableEq

/-- The `TOOLS` list of src/main.py: the three registered tools. -/
def TOOLS : List ToolFunction :=
  [{ name := "search_products",
     description := "Search for products based on a query string. Use this when the user is looking for products.",
     properties := ["q", "limit"], required := ["q"] },
   { name := "semantic_search",
     description := "Perform semantic/intelligent search using AI embeddings. Better for understanding user intent. Use this for more nuanced or descriptive queries.",
     properties := ["q", "limit"], required := ["q"] },
   { name := "get_product_details",
     description := "Get detailed information about a specific product by its ID",
     properties := ["product_id"], required := ["product_id"] }]

/-- Environment of the chat orchestrator. `firstCall` is the first
(non-streaming) completion's `response.choices` list, each choice reduced
to its `.message`, or the exception the request raised. `json_loads`
models `json.loads` on a tool call's argument string. Each handler models
the composite `str(await <endpoint>(**function_args))`: keyword binding,
the endpoint body with its external store call, and `str` serialization;
it returns the serialized result or the exception raised anywhere inside.
`finalCall` is the second (streaming) completion: either the exception the
request itself raised, or the chunks received paired with an optional
exception raised mid-stream after those chunks were delivered. -/
structure ChatEnv where
  firstCall : Except String (List RespMessage)
  json_loads : String → Except String Args
  search_products_handler : Args → Except String String
  semantic_search_handler : Args → Except String String
  get_product_details_handler : Args → Except String String
  finalCall : Except String (List Chunk × Option String)

/-- The Python value `str({"error": "Unknown function"})`. -/
def unknown_function_result : String :=
  "\x7b\x27error\x27: \x27Unknown function\x27\x7d"

/-- The `if/elif` dispatch inside the tool loop of `chat_generator`
(src/main.py): the three named handlers may raise (`Except.error`); an
unknown name produces the error dict without raising. -/
def dispatchTool (env : ChatEnv) (function_name : String) (function_args : Args) :
    Except String String :=
  if function_name = "search_products" then
    env.search_products_handler function_args
  else if function_name = "semantic_search" then
    env.semantic_search_handler function_args
  else if function_name = "get_product_details" then
    env.get_product_details_handler function_args
  else
    Except.ok unknown_function_result

/-- The tool-role message appended for one executed tool call:
`{"role": "tool", "tool_call_id": tool_call.id, "content": str(result)}`
(the dict has no tool_calls key, modelled as the empty list). -/
def toolMsg (tool_call : ToolCall) (result : String) : Message :=
  { role := "tool", content := some result, tool_calls := [],
    tool_call_id := some tool_call.id }

/-- The `for tool_call in message.tool_calls` loop of `chat_generator`:
parse the arguments with `json.loads`, dispatch, append the tool message,
continue with the next call. There is no per-call exception handling: a
raising parse or handler aborts the loop and the exception propagates to
the generator's outer handler. -/
def runToolCalls (env : ChatEnv) :
    List Message → List ToolCall → Except String (List Message)
  | api_messages, [] => Except.ok api_messages
  | api_messages, tool_call :: rest =>
    match env.json_loads tool_call.arguments with
    | Except.error e => Except.error e
    | Except.ok function_args =>
      match dispatchTool env tool_call.function_name function_args with
      | Except.error e => Except.error e
      | Except.ok result =>
        runToolCalls env (api_messages ++ [toolMsg tool_call result]) rest

/-- The fixed COMERCIA system instruction of `chat_generator`
(src/main.py), reproduced verbatim. -/
def system_instruction : String :=
  "Eres COMERCIA, un agente de venta digital inspirado en la experiencia humano-latina de un vendedor de tienda fisica: cercano, directo, confiable, con picardia ligera, orientado a cerrar ventas y crear una experiencia acompanada sin ser invasivo.\n" ++
  "\n" ++
  "Principio Rector: Cerrar ventas online nunca fue tan humano.\n" ++
  "\n" ++
  "Personalidad\n" ++
  "- Cercano, calido, amistoso - pero profesional.\n" ++
  "- Picaro con medida: dinamico, espontaneo, pero jamas inapropiado.\n" ++
  "- Seguro, convincente, experto en productos, promotor.\n" ++
  "- Respetuoso siempre, evitando frases invasivas o presion explicita.\n" ++
  "- Suena humano latino real: expresa entusiasmo, familiaridad y empatia sin caer en cliches.\n" ++
  "\n" ++
  "Comportamiento del Agente\n" ++
  "- Manten interacciones breves, claras y contextuales.\n" ++
  "- Adaptate al comportamiento del usuario.\n" ++
  "- No repitas mensajes ni uses plantillas rigidas; varia naturalmente.\n" ++
  "- Evita ser intrusivo.\n" ++
  "- Siempre busca incrementar conversion: upsell, cross-sell, bundles, retencion del carrito.\n" ++
  "\n" ++
  "Limites\n" ++
  "- Nunca presiones, manipules ni uses urgencia falsa.\n" ++
  "- No uses jerga ni expresiones inapropiadas.\n" ++
  "- No prometas descuentos que no existan.\n" ++
  "- Manten un tono amable incluso si el usuario no responde.\n" ++
  "\n" ++
  "Estilo de Comunicacion\n" ++
  "- Usa mensajes cortos, naturales, con vibra cotidiana.\n" ++
  "- Ocasionalmente usa expresiones latinoamericanas suaves (ej. si gustas, te puede servir, ojo con este, dato, esta buenazo).\n" ++
  "- Siempre util, siempre atento.\n" ++
  "- Evita signos de exclamacion excesivos.\n" ++
  "- Habla como alguien real, no como un bot.\n" ++
  "\n" ++
  "Objetivo Principal\n" ++
  "Aumentar conversiones simulando la experiencia de un vendedor de tienda fisica latino: ofreciendo ayuda, recomendando productos relevantes, evitando abandonos, motivando compras inteligentes y mejorando la experiencia sin friccion.\n" ++
  "\n" ++
  "IMPORTANTE: Tienes acceso a herramientas para buscar productos. Usala cuando el usuario pregunte por productos especificos.\n"

/-- The system message prepended to every outbound transcript:
`{"role": "system", "content": system_instruction}`. -/
def system_message : Message :=
  { role := "system", content := some system_instruction, tool_calls := [],
    tool_call_id := none }

/-- The assistant-role message appended when tool calls are present: the
first response's content plus each tool call echoed with its id, the
constant type "function", and its name and arguments. -/
def assistantEcho (message : RespMessage) : Message :=
  { role := "assistant", content := message.content,
    tool_calls := message.tool_calls, tool_call_id := none }

/-- Python truthiness of `message.content`: false for both a missing (None)
and an empty content. -/
def truthyContent : Option String → Bool
  | none => false
  | some s => decide (s ≠ "")

/-- What one streamed chunk contributes to the output: the first choice's
`delta.content` when present and truthy, nothing otherwise. -/
def chunkYield (chunk : Chunk) : Option String :=
  match chunk.choices.head? with
  | none => none
  | some none => none
  | some (some c) => if c = "" then none else some c

/-- One outbound completion request, as issued to
`client.chat.completions.create`: the message list, the temperature, the
attached tool schema (if any), the tool_choice argument (if any) and the
stream flag. -/
structure Request where
  messages : List Message
  temperature : Rat
  tools : Option (List ToolFunction)
  tool_choice : Option String
  stream : Bool
deriving DecidableEq

/-- The observable behavior of one run of `chat_generator`: the fragments
yielded to the caller in order, and the completion requests issued in
order. -/
structure GenResult where
  outputs : List String
  requests : List Request
deriving DecidableEq

/-- The first completion request of `chat_generator`: non-streaming,
temperature 0.7, the full TOOLS schema with `tool_choice="auto"`, over
`[system] + messages`. -/
def firstRequest (messages : List Message) : Request :=
  { messages := system_message :: messages, temperature := (7 : Rat) / 10,
    tools := some TOOLS, tool_choice := some "auto", stream := false }

/-- The second completion request of `chat_generator`: streaming,
temperature 0.7, no tool schema, over the extended transcript. -/
def finalRequest (api_messages : List Message) : Request :=
  { messages := api_messages, temperature := (7 : Rat) / 10,
    tools := none, tool_choice := none, stream := true }

/-- `chat_generator` (src/main.py). The whole body sits inside a single
`try/except Exception` whose handler yields `"Error: " + str(e)`: every
exception reaching it - a raising first request, a raising argument parse
or tool handler inside the loop, a raising second request, or a mid-stream
exception - becomes one terminal error fragment. `outputs` collects the
yielded fragments in order and `requests` the completion requests issued
in order. -/
def chat_generator (env : ChatEnv) (messages : List Message) : GenResult :=
  let api_messages := system_message :: messages
  match env.firstCall with
  | Except.error e =>
    { outputs := ["Error: " ++ e], requests := [firstRequest messages] }
  | Except.ok choices =>
    match choices.head? with
    | none =>
      { outputs := ["No se recibieron respuestas del modelo."],
        requests := [firstRequest messages] }
    | some message =>
      if message.tool_calls.isEmpty then
        if truthyContent message.content then
          { outputs := [message.content.getD ""],
            requests := [firstRequest messages] }
        else
          { outputs := ["Sin respuesta del modelo."],
            requests := [firstRequest messages] }
      else
        match runToolCalls env (api_messages ++ [assistantEcho message])
            message.tool_calls with
        | Except.error e =>
          { outputs := ["Error: " ++ e], requests := [firstRequest messages] }
        | Except.ok api_messages2 =>
          match env.finalCall with
          | Except.error e =>
            { outputs := ["Error: " ++ e],
              requests := [firstRequest messages, finalRequest api_messages2] }
          | Except.ok (chunks, none) =>
            { outputs := chunks.filterMap chunkYield,
              requests := [firstRequest messages, finalRequest api_messages2] }
          | Except.ok (chunks, some e) =>
            { outputs := chunks.filterMap chunkYield ++ ["Error: " ++ e],
              requests := [firstRequest messages, finalRequest api_messages2] }

/-- The request body of `POST /api/chat`: `{messages: [...]}`. -/
structure ChatRequest where
  messages : List Message
deriving DecidableEq

/-- A `StreamingResponse`: the concatenated streamed body, the media type
and the HTTP status. -/
structure StreamingResponse where
  body : List String
  media_type : String
  status_code : Nat
deriving DecidableEq

/-- `POST /api/chat` (src/main.py): wraps the generator in a
`StreamingResponse` with media type `text/plain`; the response's default
200 status is recorded explicitly. The generator is a total function, so
the route never raises to the transport layer. -/
def chat_endpoint (env : ChatEnv) (request : ChatRequest) : StreamingResponse :=
  { body := (chat_generator env request.messages).outputs,
    media_type := "text/plain", status_code := 200 }

/-- A concrete store environment: every search for query "b" raises, every
other search succeeds, and every document lookup raises `ObjectNotFound`. -/
def tsEnvBoom : TsEnv :=
  { search := fun _ q _ _ _ _ =>
      if q = "b" then Except.error (TsError.otherError "boom")
      else Except.ok ("results for " ++ q),
    retrieve := fun _ _ => Except.error (TsError.objectNotFound "missing") }

/-- The multi-search response produced by `tsEnvBoom` on the single query
"a". -/
def respA : MultiSearchResp :=
  { searches := [{ query := "a", results := "results for a" }] }

/-- A tool call whose argument string does not parse as JSON. -/
def tcBadArgs : ToolCall :=
  { id := "call_1", function_name := "search_products", arguments := "not json" }

/-- A well-formed tool call. -/
def tcGoodArgs : ToolCall :=
  { id := "call_2", function_name := "search_products", arguments := "\x7b\x7d" }

/-- A first-round model response carrying the malformed call followed by a
well-formed one. -/
def respParseFail : RespMessage :=
  { content := none, tool_calls := [tcBadArgs, tcGoodArgs] }

/-- A chat environment in which the first tool call's arguments fail to
parse while everything else succeeds. -/
def envParseFail : ChatEnv :=
  { firstCall := Except.ok [respParseFail],
    json_loads := fun s =>
      if s = "not json" then Except.error "Expecting value" else Except.ok s,
    search_products_handler := fun _ => Except.ok "ok",
    semantic_search_handler := fun _ => Except.ok "ok",
    get_product_details_handler := fun _ => Except.ok "ok",
    finalCall := Except.ok ([], none) }

/-- A caller-supplied user message. -/
def userMsg : Message :=
  { role := "user", content := some "hola", tool_calls := [], tool_call_id := none }

/-- A well-formed tool call dispatched to search_products. -/
def tcOk : ToolCall :=
  { id := "call_a", function_name := "search_products", arguments := "\x7b\x7d" }

/-- A first-round model response carrying exactly one tool call. -/
def respWithTool : RespMessage := { content := none, tool_calls := [tcOk] }

/-- A chat environment in which everything succeeds: one tool call, a
successful handler, and a clean two-chunk stream. -/
def happyEnv : ChatEnv :=
  { firstCall := Except.ok [respWithTool],
    json_loads := fun s => Except.ok s,
    search_products_handler := fun _ => Except.ok "res",
    semantic_search_handler := fun _ => Except.ok "res",
    get_product_details_handler := fun _ => Except.ok "res",
    finalCall := Except.ok ([{ choices := [some "Hola "] },
                            { choices := [some "mundo"] }], none) }

/-- Like `happyEnv`, but the final stream raises after delivering one
chunk. -/
def streamErrEnv : ChatEnv :=
  { happyEnv with
    finalCall := Except.ok ([{ choices := [some "Hola "] }], some "boom") }

/-- A first-round model response with no tool calls and non-empty text. -/
def respNoTool : RespMessage := { content := some "hola", tool_calls := [] }

/-- Like `happyEnv`, but the first response carries text only. -/
def noToolEnv : ChatEnv :=
  { happyEnv with firstCall := Except.ok [respNoTool] }

/-- A tool call whose function name is registered in no dispatch branch. -/
def tcUnknown : ToolCall :=
  { id := "call_u", function_name := "mystery_tool", arguments := "\x7b\x7d" }

/-- The transcript `happyEnv` produces at the second completion request. -/
def happyFinalTranscript : List Message :=
  [system_message, userMsg, assistantEcho respWithTool, toolMsg tcOk "res"]

/-- Structural lemma about the tool loop: a successful run appends exactly
one tool-role message per tool call, carrying that call's id, in the order
the calls appear. -/
theorem runToolCalls_append (env : ChatEnv) :
    ∀ (tcs : List ToolCall) (msgs msgs2 : List Message),
      runToolCalls env msgs tcs = Except.ok msgs2 →
      ∃ tail, msgs2 = msgs ++ tail ∧ tail.length = tcs.length ∧
        ∀ i, i < tcs.length →
          ∃ tmsg tc, tail[i]? = some tmsg ∧ tcs[i]? = some tc ∧
            tmsg.role = "tool" ∧ tmsg.tool_call_id = some tc.id := by
  intro tcs
  induction tcs with
  | nil =>
    intro msgs msgs2 h
    simp only [runToolCalls] at h
    injection h with h
    subst h
    exact ⟨[], by simp, rfl, fun i hi => absurd hi (Nat.not_lt_zero i)⟩
  | cons tc rest ih =>
    intro msgs msgs2 h
    cases hp : env.json_loads tc.arguments with
    | error e => simp [runToolCalls, hp] at h
    | ok args =>
      cases hd : dispatchTool env tc.function_name args with
      | error e => simp [runToolCalls, hp, hd] at h
      | ok result =>
        simp only [runToolCalls, hp, hd] at h
        obtain ⟨tail, heq, hlen, hidx⟩ := ih (msgs ++ [toolMsg tc result]) msgs2 h
        refine ⟨toolMsg tc result :: tail, ?_, by simp [hlen], ?_⟩
        · rw [heq]; simp
        · intro i hi
          cases i with
          | zero => exact ⟨toolMsg tc result, tc, by simp, by simp, rfl, rfl⟩
          | succ j =>
            have hj : j < rest.length := by
              simp only [List.length_cons] at hi; omega
            obtain ⟨tmsg, tc2, h1, h2, h3, h4⟩ := hidx j hj
            exact ⟨tmsg, tc2, by simpa using h1, by simpa using h2, h3, h4⟩

/-- When the tool loop succeeds, `chat_generator` issues exactly the first
request and the final streaming request over the extended transcript. -/
theorem chat_generator_tool_requests (env : ChatEnv) (messages : List Message)
    (choices : List RespMessage) (m : RespMessage) (msgs2 : List Message)
    (h1 : env.firstCall = Except.ok choices) (h2 : choices.head? = some m)
    (h3 : m.tool_calls.isEmpty = false)
    (h4 : runToolCalls env ((system_message :: messages) ++ [assistantEcho m])
            m.tool_calls = Except.ok msgs2) :
    (chat_generator env messages).requests =
      [firstRequest messages, finalRequest msgs2] := by
  have h4x : runToolCalls env (system_message :: (messages ++ [assistantEcho m]))
      m.tool_calls = Except.ok msgs2 := h4
  cases hf : env.finalCall with
  | error e => simp [chat_generator, h1, h2, h3, h4x, hf]
  | ok p =>
    obtain ⟨chunks, merr⟩ := p
    cases merr <;> simp [chat_generator, h1, h2, h3, h4x, hf]

/-- Every run of `chat_generator` issues either the first request alone, or
the first request followed by the final request over the transcript the
tool loop produced. -/
theorem chat_generator_requests_shape (env : ChatEnv) (messages : List Message) :
    (chat_generator env messages).requests = [firstRequest messages] ∨
    ∃ choices m msgs2, env.firstCall = Except.ok choices ∧
      choices.head? = some m ∧ m.tool_calls.isEmpty = false ∧
      runToolCalls env ((system_message :: messages) ++ [assistantEcho m])
        m.tool_calls = Except.ok msgs2 ∧
      (chat_generator env messages).requests =
        [firstRequest messages, finalRequest msgs2] := by
  cases h1 : env.firstCall with
  | error e => left; simp [chat_generator, h1]
  | ok choices =>
    cases h2 : choices.head? with
    | none => left; simp [chat_generator, h1, h2]
    | some m =>
      cases h3 : m.tool_calls.isEmpty with
      | true =>
        left
        cases h3c : truthyContent m.content <;>
          simp [chat_generator, h1, h2, h3, h3c]
      | false =>
        cases h4 : runToolCalls env
            (system_message :: (messages ++ [assistantEcho m])) m.tool_calls with
        | error e => left; simp [chat_generator, h1, h2, h3, h4]
        | ok msgs2 =>
          right
          refine ⟨choices, m, msgs2, rfl, h2, h3, h4, ?_⟩
          exact chat_generator_tool_requests env messages choices m msgs2 h1 h2 h3 h4

/-- Structural lemma about the multi-search loop: a successful run returns
one item per query, carrying that query and its own search result, in
input order. -/
theorem multiSearchLoop_spec (env : TsEnv) (limit : Int) :
    ∀ (queries : List String) (items : List SearchItem),
      multiSearchLoop env limit queries = Except.ok items →
      items.length = queries.length ∧
      ∀ i, i < queries.length →
        ∃ item q, items[i]? = some item ∧ queries[i]? = some q ∧
          item.query = q ∧
          TypesenseService.search env "products" q
            "embedding,name,brand,categories" "_text_match:desc" limit 0 =
              Except.ok item.results := by
  intro queries
  induction queries with
  | nil =>
    intro items h
    simp only [multiSearchLoop] at h
    injection h with h
    subst h
    exact ⟨rfl, fun i hi => absurd hi (Nat.not_lt_zero i)⟩
  | cons q rest ih =>
    intro items h
    cases hs : TypesenseService.search env "products" q
        "embedding,name,brand,categories" "_text_match:desc" limit 0 with
    | error e => simp [multiSearchLoop, hs] at h
    | ok r =>
      cases hl : multiSearchLoop env limit rest with
      | error e => simp [multiSearchLoop, hs, hl] at h
      | ok tail =>
        simp only [multiSearchLoop, hs, hl, Except.ok.injEq] at h
        subst h
        obtain ⟨hlen, hidx⟩ := ih tail hl
        refine ⟨by simp [hlen], ?_⟩
        intro i hi
        cases i with
        | zero => exact ⟨{ query := q, results := r }, q, by simp, by simp, rfl, hs⟩
        | succ j =>
          have hj : j < rest.length := by
            simp only [List.length_cons] at hi; omega
          obtain ⟨item, q2, h1, h2, h3, h4⟩ := hidx j hj
          exact ⟨item, q2, by simpa using h1, by simpa using h2, h3, h4⟩

/-- C1 counterexample: with two tool calls, the first having malformed
arguments, the failure is not isolated to that call: no tool-role message
is appended for it, the second call never executes, no final completion
request is issued, and the whole turn ends with a single error fragment. -/
theorem toolcall_failure_not_isolated :
    runToolCalls envParseFail
        ((system_message :: ([] : List Message)) ++ [assistantEcho respParseFail])
        [tcBadArgs, tcGoodArgs] = Except.error "Expecting value" ∧
    (chat_generator envParseFail []).outputs = ["Error: Expecting value"] ∧
    (chat_generator envParseFail []).requests = [firstRequest []] :=
  ⟨rfl, rfl, rfl⟩

/-- C1 (amended): unknown tool names degrade to a per-call error tool
message, but a tool call whose arguments fail to parse or whose handler
raises is not caught per-call: the exception aborts the loop - no tool
message is appended for it and the remaining calls are skipped - and is
caught only by the generator's outer handler, which ends the turn with a
single terminal error fragment and no final completion request. -/
theorem toolcall_failure_aborts_turn (env : ChatEnv) :
    (∀ (api_messages : List Message) (tool_call : ToolCall) (rest : List ToolCall)
        (e : String),
      (env.json_loads tool_call.arguments = Except.error e ∨
        ∃ args, env.json_loads tool_call.arguments = Except.ok args ∧
          dispatchTool env tool_call.function_name args = Except.error e) →
      runToolCalls env api_messages (tool_call :: rest) = Except.error e) ∧
    (∀ (messages : List Message) (choices : List RespMessage) (m : RespMessage)
        (e : String),
      env.firstCall = Except.ok choices → choices.head? = some m →
      m.tool_calls.isEmpty = false →
      runToolCalls env ((system_message :: messages) ++ [assistantEcho m])
        m.tool_calls = Except.error e →
      (chat_generator env messages).outputs = ["Error: " ++ e] ∧
      (chat_generator env messages).requests = [firstRequest messages]) := by
  constructor
  · rintro api_messages tool_call rest e hfail
    rcases hfail with h | ⟨args, ha, hb⟩
    · simp [runToolCalls, h]
    · simp [runToolCalls, ha, hb]
  · intro messages choices m e h1 h2 h3 h4
    have h4x : runToolCalls env (system_message :: (messages ++ [assistantEcho m]))
        m.tool_calls = Except.error e := h4
    constructor <;> simp [chat_generator, h1, h2, h3, h4x]

/-- C1 witness: the amended theorem applied to the concrete aborting
environment. -/
theorem toolcall_failure_aborts_turn_witness :
    runToolCalls envParseFail [] [tcBadArgs, tcGoodArgs] =
        Except.error "Expecting value" ∧
    ((chat_generator envParseFail []).outputs = ["Error: Expecting value"] ∧
      (chat_generator envParseFail []).requests = [firstRequest []]) :=
  ⟨(toolcall_failure_aborts_turn envParseFail).1 [] tcBadArgs [tcGoodArgs]
      "Expecting value" (Or.inl rfl),
    (toolcall_failure_aborts_turn envParseFail).2 [] [respParseFail] respParseFail
      "Expecting value" rfl rfl rfl rfl⟩

/-- C2: when the tool loop completes (i.e. whenever the final completion
request is issued), exactly one tool-role message has been appended per
tool call, in the order the model returned the calls, each carrying its
originating call's id, and the final request is issued over exactly that
transcript. -/
theorem tool_messages_one_per_call (env : ChatEnv) (messages : List Message)
    (choices : List RespMessage) (m : RespMessage) (msgs2 : List Message)
    (h1 : env.firstCall = Except.ok choices) (h2 : choices.head? = some m)
    (h3 : m.tool_calls.isEmpty = false)
    (h4 : runToolCalls env ((system_message :: messages) ++ [assistantEcho m])
            m.tool_calls = Except.ok msgs2) :
    (chat_generator env messages).requests[1]? = some (finalRequest msgs2) ∧
    ∃ tail, msgs2 = ((system_message :: messages) ++ [assistantEcho m]) ++ tail ∧
      tail.length = m.tool_calls.length ∧
      ∀ i, i < m.tool_calls.length →
        ∃ tmsg tc, tail[i]? = some tmsg ∧ m.tool_calls[i]? = some tc ∧
          tmsg.role = "tool" ∧ tmsg.tool_call_id = some tc.id := by
  constructor
  · rw [chat_generator_tool_requests env messages choices m msgs2 h1 h2 h3 h4]
    simp
  · exact runToolCalls_append env m.tool_calls _ _ h4

/-- C2 witness: the theorem applied to the concrete one-tool-call
environment. -/
theorem tool_messages_one_per_call_witness :
    (chat_generator happyEnv [userMsg]).requests[1]? =
        some (finalRequest happyFinalTranscript) ∧
    ∃ tail, happyFinalTranscript =
        ((system_message :: [userMsg]) ++ [assistantEcho respWithTool]) ++ tail ∧
      tail.length = respWithTool.tool_calls.length ∧
      ∀ i, i < respWithTool.tool_calls.length →
        ∃ tmsg tc, tail[i]? = some tmsg ∧ respWithTool.tool_calls[i]? = some tc ∧
          tmsg.role = "tool" ∧ tmsg.tool_call_id = some tc.id :=
  tool_messages_one_per_call happyEnv [userMsg] [respWithTool] respWithTool
    happyFinalTranscript rfl rfl rfl rfl

/-- C3 (amended): whenever every individual search succeeds, multi_search
returns one element per query, carrying that query and its own search
result, in input order; but when any individual search raises, the
exception propagates out of the endpoint and no searches object is
returned at all. -/
theorem multi_search_order_preserved (env : TsEnv) (queries : List String)
    (limit : Int) (resp : MultiSearchResp)
    (h : multi_search env queries limit = Except.ok resp) :
    resp.searches.length = queries.length ∧
    ∀ i, i < queries.length →
      ∃ item q, resp.searches[i]? = some item ∧ queries[i]? = some q ∧
        item.query = q ∧
        TypesenseService.search env "products" q "embedding,name,brand,categories"
          "_text_match:desc" limit 0 = Except.ok item.results := by
  cases hl : multiSearchLoop env limit queries with
  | error e => simp [multi_search, hl] at h
  | ok items =>
    simp only [multi_search, hl, Except.ok.injEq] at h
    subst h
    exact multiSearchLoop_spec env limit queries items hl

/-- C3 counterexample: on queries ["a","b"] where the search for "b"
raises, multi_search returns no searches object at all - the exception
propagates and aborts the whole endpoint. -/
theorem multi_search_error_aborts :
    multi_search tsEnvBoom ["a", "b"] 2 =
      Except.error (TsError.otherError "boom") :=
  rfl

/-- C3 witness: the amended theorem applied to a fully-succeeding query
list. -/
theorem multi_search_order_preserved_witness :
    respA.searches.length = (["a"] : List String).length ∧
    ∀ i, i < (["a"] : List String).length →
      ∃ item q, respA.searches[i]? = some item ∧
        (["a"] : List String)[i]? = some q ∧ item.query = q ∧
        TypesenseService.search tsEnvBoom "products" q
          "embedding,name,brand,categories" "_text_match:desc" 2 0 =
            Except.ok item.results :=
  multi_search_order_preserved tsEnvBoom ["a"] 2 respA rfl

/-- C4 (amended): get_document surfaces the client's NotFound unchanged,
and get_product_details also propagates it unchanged: the route performs no
conversion to a structured error object, so the failure reaches the
transport layer. -/
theorem get_product_details_propagates_error (env : TsEnv) (product_id : String)
    (e : TsError) (h : env.retrieve "products" product_id = Except.error e) :
    get_document env "products" product_id = Except.error e ∧
    get_product_details env product_id = Except.error e :=
  ⟨h, h⟩

/-- C4 counterexample: on a store whose lookup raises ObjectNotFound, the
endpoint's result is the propagated exception (a transport-level failure),
not a returned error-object value. -/
theorem get_product_details_not_converted :
    get_product_details tsEnvBoom "missing" =
      Except.error (TsError.objectNotFound "missing") :=
  rfl

/-- C4 witness: the amended theorem applied to the concrete
always-NotFound store. -/
theorem get_product_details_propagates_error_witness :
    get_document tsEnvBoom "products" "p1" =
        Except.error (TsError.objectNotFound "missing") ∧
    get_product_details tsEnvBoom "p1" =
        Except.error (TsError.objectNotFound "missing") :=
  get_product_details_propagates_error tsEnvBoom "p1"
    (TsError.objectNotFound "missing") rfl

/-- C5: the modelled /get_related_products derives its query from the
target document's brand and name and returns the top-5 search result on
success; on any failure - in particular a failed document lookup - it
returns the structured error object with the fixed prefix, and its result
is always either a result set or such an error object: the raw lookup
failure never propagates. -/
theorem related_products_error_contained (env : TsEnv) (product_id : String) :
    (∀ e, env.retrieve "products" product_id = Except.error e →
      get_related_products env product_id =
        RelatedResp.errObj ("Could not find related products: " ++ e.detail)) ∧
    (∀ doc r, env.retrieve "products" product_id = Except.ok doc →
      TypesenseService.search env "products" (doc.brand ++ " " ++ doc.name)
        "name,brand,categories,embedding" "_text_match:desc" 5 0 = Except.ok r →
      get_related_products env product_id = RelatedResp.results r) ∧
    ((∃ r, get_related_products env product_id = RelatedResp.results r) ∨
      (∃ d, get_related_products env product_id =
        RelatedResp.errObj ("Could not find related products: " ++ d))) := by
  refine ⟨?_, ?_, ?_⟩
  · intro e h
    simp [get_related_products, get_document, h]
  · intro doc r h1 h2
    simp [get_related_products, get_document, h1, h2]
  · cases hr : env.retrieve "products" product_id with
    | error e =>
      right
      exact ⟨e.detail, by simp [get_related_products, get_document, hr]⟩
    | ok doc =>
      cases hs : TypesenseService.search env "products"
          (doc.brand ++ " " ++ doc.name) "name,brand,categories,embedding"
          "_text_match:desc" 5 0 with
      | error e =>
        right
        exact ⟨e.detail, by simp [get_related_products, get_document, hr, hs]⟩
      | ok r =>
        left
        exact ⟨r, by simp [get_related_products, get_document, hr, hs]⟩

/-- C5 witness: the theorem's lookup-failure branch applied to the concrete
always-NotFound store. -/
theorem related_products_error_contained_witness :
    get_related_products tsEnvBoom "42" =
      RelatedResp.errObj ("Could not find related products: " ++
        (TsError.objectNotFound "missing").detail) :=
  (related_products_error_contained tsEnvBoom "42").1
    (TsError.objectNotFound "missing") rfl

/-- C6: every failure arising inside the chat orchestrator is caught
locally and emitted as a terminal streamed error fragment; fragments
already streamed before a mid-stream failure are not retracted; and the
HTTP response itself reports success (status 200, media type text/plain)
in every case. -/
theorem chat_route_failures_streamed (env : ChatEnv) (messages : List Message) :
    ((chat_endpoint env { messages := messages }).status_code = 200 ∧
      (chat_endpoint env { messages := messages }).media_type = "text/plain") ∧
    (∀ e, env.firstCall = Except.error e →
      (chat_endpoint env { messages := messages }).body = ["Error: " ++ e]) ∧
    (∀ choices m e, env.firstCall = Except.ok choices → choices.head? = some m →
      m.tool_calls.isEmpty = false →
      runToolCalls env ((system_message :: messages) ++ [assistantEcho m])
        m.tool_calls = Except.error e →
      (chat_endpoint env { messages := messages }).body = ["Error: " ++ e]) ∧
    (∀ choices m msgs2 e, env.firstCall = Except.ok choices →
      choices.head? = some m → m.tool_calls.isEmpty = false →
      runToolCalls env ((system_message :: messages) ++ [assistantEcho m])
        m.tool_calls = Except.ok msgs2 →
      env.finalCall = Except.error e →
      (chat_endpoint env { messages := messages }).body = ["Error: " ++ e]) ∧
    (∀ choices m msgs2 chunks e, env.firstCall = Except.ok choices →
      choices.head? = some m → m.tool_calls.isEmpty = false →
      runToolCalls env ((system_message :: messages) ++ [assistantEcho m])
        m.tool_calls = Except.ok msgs2 →
      env.finalCall = Except.ok (chunks, some e) →
      (chat_endpoint env { messages := messages }).body =
        chunks.filterMap chunkYield ++ ["Error: " ++ e]) := by
  refine ⟨⟨rfl, rfl⟩, ?_, ?_, ?_, ?_⟩
  · intro e h
    simp [chat_endpoint, chat_generator, h]
  · intro choices m e h1 h2 h3 h4
    have h4x : runToolCalls env (system_message :: (messages ++ [assistantEcho m]))
        m.tool_calls = Except.error e := h4
    simp [chat_endpoint, chat_generator, h1, h2, h3, h4x]
  · intro choices m msgs2 e h1 h2 h3 h4 h5
    have h4x : runToolCalls env (system_message :: (messages ++ [assistantEcho m]))
        m.tool_calls = Except.ok msgs2 := h4
    simp [chat_endpoint, chat_generator, h1, h2, h3, h4x, h5]
  · intro choices m msgs2 chunks e h1 h2 h3 h4 h5
    have h4x : runToolCalls env (system_message :: (messages ++ [assistantEcho m]))
        m.tool_calls = Except.ok msgs2 := h4
    simp [chat_endpoint, chat_generator, h1, h2, h3, h4x, h5]

/-- C6 witness: the mid-stream-failure branch applied to the concrete
environment whose stream raises after one delivered chunk: the flushed
prefix is kept and the error marker follows it. -/
theorem chat_route_failures_streamed_witness :
    (chat_endpoint streamErrEnv { messages := [userMsg] }).body =
      ([{ choices := [some "Hola "] }] : List Chunk).filterMap chunkYield ++
        ["Error: boom"] :=
  (chat_route_failures_streamed streamErrEnv [userMsg]).2.2.2.2 [respWithTool]
    respWithTool happyFinalTranscript [{ choices := [some "Hola "] }] "boom"
    rfl rfl rfl rfl rfl

/-- C7: the first completion request is issued over [system instruction] +
caller messages with the full tool schema, tool_choice auto, streaming
disabled and temperature 0.7; any second completion request has streaming
enabled, no tool schema, temperature 0.7, and is issued over the transcript
the tool loop extended. -/
theorem completion_request_parameters (env : ChatEnv) (messages : List Message) :
    (chat_generator env messages).requests[0]? = some
      { messages := system_message :: messages, temperature := (7 : Rat) / 10,
        tools := some TOOLS, tool_choice := some "auto", stream := false } ∧
    (∀ req, (chat_generator env messages).requests[1]? = some req →
      req.temperature = (7 : Rat) / 10 ∧ req.tools = none ∧ req.stream = true ∧
      ∃ choices m, env.firstCall = Except.ok choices ∧ choices.head? = some m ∧
        runToolCalls env ((system_message :: messages) ++ [assistantEcho m])
          m.tool_calls = Except.ok req.messages) := by
  constructor
  · rcases chat_generator_requests_shape env messages with h |
      ⟨choices, m, msgs2, hc, hm, hne, hrun, h⟩ <;> simp [h, firstRequest]
  · intro req hreq
    rcases chat_generator_requests_shape env messages with h |
      ⟨choices, m, msgs2, hc, hm, hne, hrun, h⟩
    · rw [h] at hreq
      simp at hreq
    · rw [h] at hreq
      simp only [List.getElem?_cons_succ, List.getElem?_cons_zero,
        Option.some.injEq] at hreq
      subst hreq
      exact ⟨rfl, rfl, rfl, choices, m, hc, hm, hrun⟩

/-- C7 witness: the second-request branch applied to the concrete
one-tool-call environment. -/
theorem completion_request_parameters_witness :
    (finalRequest happyFinalTranscript).temperature = (7 : Rat) / 10 ∧
    (finalRequest happyFinalTranscript).tools = none ∧
    (finalRequest happyFinalTranscript).stream = true ∧
    ∃ choices m, happyEnv.firstCall = Except.ok choices ∧ choices.head? = some m ∧
      runToolCalls happyEnv ((system_message :: [userMsg]) ++ [assistantEcho m])
        m.tool_calls = Except.ok (finalRequest happyFinalTranscript).messages :=
  (completion_request_parameters happyEnv [userMsg]).2
    (finalRequest happyFinalTranscript) rfl

/-- C8: when the first-round response carries no tool calls, the chat
endpoint emits its non-empty content as the entire body in one fragment,
and emits the fixed fallback string when the response has neither tool
calls nor truthy content. -/
theorem no_toolcalls_single_emission (env : ChatEnv) (messages : List Message)
    (choices : List RespMessage) (m : RespMessage)
    (h1 : env.firstCall = Except.ok choices) (h2 : choices.head? = some m)
    (h3 : m.tool_calls.isEmpty = true) :
    (∀ c, m.content = some c → c ≠ "" →
      (chat_endpoint env { messages := messages }).body = [c]) ∧
    (truthyContent m.content = false →
      (chat_endpoint env { messages := messages }).body =
        ["Sin respuesta del modelo."]) := by
  constructor
  · intro c hc hne
    have ht : truthyContent (some c) = true := by simp [truthyContent, hne]
    simp [chat_endpoint, chat_generator, h1, h2, h3, hc, ht]
  · intro hf
    simp [chat_endpoint, chat_generator, h1, h2, h3, hf]

/-- C8 witness: the theorem applied to the concrete text-only response. -/
theorem no_toolcalls_single_emission_witness :
    (chat_endpoint noToolEnv { messages := [userMsg] }).body = ["hola"] :=
  (no_toolcalls_single_emission noToolEnv [userMsg] [respNoTool] respNoTool
    rfl rfl rfl).1 "hola" rfl (by decide)

/-- C9: a tool call whose function name is none of the three registered
tools and whose arguments parse is converted to the fixed error dict,
recorded as that call's own tool-role message, and the loop continues with
the remaining calls: no exception is introduced by the unknown name. -/
theorem unknown_tool_degrades_to_error_message (env : ChatEnv)
    (api_messages : List Message) (tool_call : ToolCall) (rest : List ToolCall)
    (args : Args) (h1 : env.json_loads tool_call.arguments = Except.ok args)
    (h2 : tool_call.function_name ≠ "search_products")
    (h3 : tool_call.function_name ≠ "semantic_search")
    (h4 : tool_call.function_name ≠ "get_product_details") :
    dispatchTool env tool_call.function_name args =
        Except.ok unknown_function_result ∧
    runToolCalls env api_messages (tool_call :: rest) =
      runToolCalls env
        (api_messages ++ [toolMsg tool_call unknown_function_result]) rest := by
  have hd : dispatchTool env tool_call.function_name args =
      Except.ok unknown_function_result := by
    simp [dispatchTool, h2, h3, h4]
  refine ⟨hd, ?_⟩
  simp [runToolCalls, h1, hd]

/-- C9 witness: the theorem applied to a concrete unregistered tool name
with well-formed arguments. -/
theorem unknown_tool_degrades_witness :
    dispatchTool happyEnv tcUnknown.function_name tcUnknown.arguments =
        Except.ok unknown_function_result ∧
    runToolCalls happyEnv [] [tcUnknown] =
      runToolCalls happyEnv ([] ++ [toolMsg tcUnknown unknown_function_result]) [] :=
  unknown_tool_degrades_to_error_message happyEnv [] tcUnknown []
    tcUnknown.arguments rfl (by decide) (by decide) (by decide)

/-- C10: every outbound transcript consists of the system message, then the
caller-supplied messages element-for-element unchanged, then only appended
messages: the system instruction is prepended and all assistant/tool
messages are appended to a freshly built list, never inserted into or
substituted for the caller's block. -/
theorem caller_messages_preserved (env : ChatEnv) (messages : List Message) :
    ∀ req ∈ (chat_generator env messages).requests,
      ∃ tail, req.messages = (system_message :: messages) ++ tail := by
  intro req hreq
  rcases chat_generator_requests_shape env messages with h |
    ⟨choices, m, msgs2, hc, hm, hne, hrun, h⟩
  · rw [h] at hreq
    simp at hreq
    subst hreq
    exact ⟨[], by simp [firstRequest]⟩
  · rw [h] at hreq
    simp at hreq
    rcases hreq with rfl | rfl
    · exact ⟨[], by simp [firstRequest]⟩
    · obtain ⟨tail, heq, -, -⟩ := runToolCalls_append env m.tool_calls _ _ hrun
      exact ⟨[assistantEcho m] ++ tail, by simp [finalRequest, heq]⟩

/-- C10 witness: the theorem applied to the first request of the concrete
environment. -/
theorem caller_messages_preserved_witness :
    ∃ tail, (firstRequest [userMsg]).messages =
      (system_message :: [userMsg]) ++ tail :=
  caller_messages_preserved happyEnv [userMsg] (firstRequest [userMsg])
    (show firstRequest [userMsg] ∈ (chat_generator happyEnv [userMsg]).requests
      from List.Mem.head _)
